import Mathlib

/-!
Verification of the `fabrikator` parametric-CAD library against its
specification.

The development shallowly embeds the parts of the Python source the claims
refer to:

* `cadlib/validators.py` — the pydantic parameter models `TubeParams`,
  `HoleSpec` and `RectEnclosureParams`.  Construction validates fields in
  declaration order: for a field that the caller passes, the declared range
  bounds (`Field(ge=…, le=…)`) and then its `field_validator` run on the
  passed value; for an omitted field, pydantic v2 installs the declared
  default *without any validation* (`validate_default` is `False` and no
  field of `validators.py` overrides it), so neither bounds nor validators
  run on defaults.  A later validator's `info.data` holds the already
  completed earlier fields — passed values that validated, and installed
  defaults — while a field whose own validation failed is missing from it
  (hence the `info.data.get(…, 0.0)` in the source).  `mkTubeParams` and
  `mkHoleSpec` therefore take each optional field as an `Option` (`none` =
  omitted); `mkRectEnclosureParams` is modelled over explicitly passed
  values only, which is exhaustive for its claim: its defaults
  (`lid_height` 4, `height` 40) cannot violate the lid constraint against
  any in-range value, so omission changes no in-range outcome there.
  Pydantic aggregates several field errors into one `ValidationError`; the
  model returns the first error in declaration order, which coincides with
  pydantic whenever at most one field is at fault — the situation all the
  claims quantify over.  Python floats are modelled as rationals (`ℚ`);
  every comparison the validators perform is exact on the inputs involved.

* `cadlib/standards.py` — `pattern_nema17` over `ℚ` (all arithmetic is
  dyadic and hence exact) and `bolt_circle` over `ℝ` (the source uses
  `math.cos`/`math.sin`; the idealised real functions stand for them).

* `backend/tools/run_generated_guarded.py` — the guarded script runner.
  A script is modelled by what the runner observes of it: whether it
  parses, the import nodes of its AST, whether top-level execution raises,
  the behaviour of a `build()` entry point, and the solid-valued module
  globals.  File-system primitives (`open` on the readable path the claims
  presuppose, `os.makedirs`) are assumed to succeed; `cq.exporters.export`
  and `Workplane.add` outcomes are part of the script model since they
  depend on the kernel.
-/

namespace Fabrikator

/-! ## cadlib/validators.py -/

/-- `end_style` field of `TubeParams`: `Literal["open","one_end_closed","both_closed"]`. -/
inductive EndStyle where
  | open_ : EndStyle
  | one_end_closed : EndStyle
  | both_closed : EndStyle
deriving DecidableEq, Repr

/-- The record of field values held by a constructed `TubeParams`. -/
structure TubeParams where
  outer_diameter : ℚ
  wall_thickness : ℚ
  height : ℚ
  end_style : EndStyle
  end_cap_thickness : ℚ
deriving DecidableEq, Repr

/-- Construction of `TubeParams` from the fields the caller passes (`none` =
omitted, so the default is installed unvalidated).  For a passed field, the
`Field(ge=…, le=…)` bounds run, and for a passed `wall_thickness` the
`wall_reasonable` validator runs: it reads `outer_diameter` from `info.data`
— by that point the passed-and-valid value or the installed default `20.0`
(a passed value that failed its bounds would be missing, read as the `0.0`
default of `.get`, but under first-error reporting that point is never
reached) — and raises when `outer and v * 2.0 >= outer`, the Python
truthiness test `outer` being `outer ≠ 0`. -/
def mkTubeParams (outer_diameter wall_thickness height : Option ℚ)
    (end_style : Option EndStyle) (end_cap_thickness : Option ℚ) :
    Except String TubeParams :=
  let outerV := outer_diameter.getD 20
  let wallV := wall_thickness.getD (12/5)
  let heightV := height.getD 40
  let capV := end_cap_thickness.getD 2
  if outer_diameter.isSome ∧ ¬ (2 ≤ outerV ∧ outerV ≤ 1000) then
    .error "outer_diameter out of range"
  else if wall_thickness.isSome ∧ ¬ (4/5 ≤ wallV ∧ wallV ≤ 100) then
    .error "wall_thickness out of range"
  else if wall_thickness.isSome ∧ outerV ≠ 0 ∧ wallV * 2 ≥ outerV then
    .error "wall_thickness must be < outer_diameter / 2"
  else if height.isSome ∧ ¬ (1 ≤ heightV ∧ heightV ≤ 2000) then
    .error "height out of range"
  else if end_cap_thickness.isSome ∧ ¬ (4/5 ≤ capV ∧ capV ≤ 20) then
    .error "end_cap_thickness out of range"
  else
    .ok ⟨outerV, wallV, heightV, end_style.getD .open_, capV⟩

/-- `size` field of `HoleSpec`. -/
inductive HoleSize where
  | M2 | M2_5 | M3 | M4 | M5 | M6
deriving DecidableEq, Repr

/-- `fit` field of `HoleSpec`. -/
inductive HoleFit where
  | TIGHT | SNAP | SLIDE
deriving DecidableEq, Repr

/-- `standard` field of `HoleSpec`. -/
inductive HoleStandard where
  | ISO | UNC
deriving DecidableEq, Repr

/-- `head_type` field of `HoleSpec`. -/
inductive HeadType where
  | flat | pan | socket
deriving DecidableEq, Repr

/-- The record of field values held by a constructed `HoleSpec`. -/
structure HoleSpec where
  standard : HoleStandard
  size : HoleSize
  fit : HoleFit
  through : Bool
  depth : Option ℚ
  counterbore : Bool
  countersink : Bool
  head_type : Option HeadType
deriving DecidableEq, Repr

/-- The Python test `v is None or v <= 0` performed by `depth_required_for_blind`. -/
def depthMissingOrNonpositive : Option ℚ → Bool
  | none => true
  | some d => decide (d ≤ 0)

/-- Construction of `HoleSpec` from the arguments the caller passes.  `size`
is required; every other field may be omitted (`none` = omitted, default
installed unvalidated).  `depth` is doubly optional: `none` = omitted (the
default `None` is installed and `depth_required_for_blind` never runs),
`some none` = `depth=None` passed explicitly, `some (some d)` = a number
passed.  No field carries range bounds (the enumerated fields are enforced
by their types), so only the `depth_required_for_blind` validator can fail;
it runs exactly when `depth` was passed, reads `through` from `info.data`
(a plain `bool` field declared before `depth`, hence always present —
passed or defaulted to `True`) and raises when
`not through and (v is None or v <= 0)`. -/
def mkHoleSpec (standard : Option HoleStandard) (size : HoleSize)
    (fit : Option HoleFit) (through : Option Bool) (depth : Option (Option ℚ))
    (counterbore countersink : Option Bool)
    (head_type : Option (Option HeadType)) : Except String HoleSpec :=
  let throughV := through.getD true
  let depthV := depth.getD none
  if depth.isSome ∧ throughV = false ∧ depthMissingOrNonpositive depthV = true then
    .error "depth must be provided for blind holes"
  else
    .ok ⟨standard.getD .ISO, size, fit.getD .SNAP, throughV, depthV,
      counterbore.getD false, countersink.getD false, head_type.getD none⟩

/-- The record of field values held by a constructed `RectEnclosureParams`. -/
structure RectEnclosureParams where
  length : ℚ
  width : ℚ
  height : ℚ
  wall_thickness : ℚ
  lid_height : ℚ
  lid_clearance : ℚ
deriving DecidableEq, Repr

/-- Construction of `RectEnclosureParams`: the declared bounds in field order,
then the `lid_taller_than_wall` validator on `lid_height`, which reads
`height` from `info.data` (the `0.0` default of `.get` when the height bounds
failed) and raises when `v >= height`. -/
def mkRectEnclosureParams (length width height wall_thickness lid_height lid_clearance : ℚ) :
    Except String RectEnclosureParams :=
  if ¬ (20 ≤ length ∧ length ≤ 1000) then
    .error "length out of range"
  else if ¬ (20 ≤ width ∧ width ≤ 1000) then
    .error "width out of range"
  else if ¬ (10 ≤ height ∧ height ≤ 1000) then
    .error "height out of range"
  else if ¬ (6/5 ≤ wall_thickness ∧ wall_thickness ≤ 10) then
    .error "wall_thickness out of range"
  else if ¬ (2 ≤ lid_height ∧ lid_height ≤ 30) then
    .error "lid_height out of range"
  else if lid_height ≥ height then
    .error "lid_height must be < total height"
  else if ¬ (1/20 ≤ lid_clearance ∧ lid_clearance ≤ 1) then
    .error "lid_clearance out of range"
  else
    .ok ⟨length, width, height, wall_thickness, lid_height, lid_clearance⟩

/-! ## cadlib/standards.py -/

/-- `pattern_nema17`: the four hole locations of a NEMA17 motor mount,
a 31 mm square centred on `origin`, as written in the source
(`pitch = 31.0`, `half = pitch / 2.0`). -/
def pattern_nema17 (origin : ℚ × ℚ × ℚ) : List (ℚ × ℚ × ℚ) :=
  let pitch : ℚ := 31
  let half : ℚ := pitch / 2
  let ox := origin.1
  let oy := origin.2.1
  let oz := origin.2.2
  [ (ox - half, oy - half, oz),
    (ox + half, oy - half, oz),
    (ox + half, oy + half, oz),
    (ox - half, oy + half, oz) ]

/-- `math.radians`: degrees to radians, `x * (pi / 180)`. -/
noncomputable def radians (x : ℝ) : ℝ := x * (Real.pi / 180)

/-- `bolt_circle`: `step = 360.0 / n` is evaluated before the loop, so `n = 0`
raises `ZeroDivisionError`; otherwise the points for `i in range(n)` (empty
when `n < 0`, since Python `range` of a negative bound is empty) at angle
`radians(start_angle_deg + step * i)` on the circle of radius `radius`
centred at `(ox, oy)` in the plane `z = oz`. -/
noncomputable def bolt_circle (n : ℤ) (radius start_angle_deg : ℝ)
    (origin : ℝ × ℝ × ℝ) : Except String (List (ℝ × ℝ × ℝ)) :=
  if n = 0 then .error "ZeroDivisionError"
  else
    let step : ℝ := 360 / (n : ℝ)
    let ox := origin.1
    let oy := origin.2.1
    let oz := origin.2.2
    .ok ((List.range n.toNat).map fun i : ℕ =>
      let ang := radians (start_angle_deg + step * (i : ℝ))
      (ox + radius * Real.cos ang, oy + radius * Real.sin ang, oz))

/-! ## backend/tools/run_generated_guarded.py -/

/-- An `import` / `from … import …` node of the script's AST, as the guard
inspects it after `ast.walk`.  An `ast.Import` node carries a non-empty list
of dotted module names (`import a, b, c`), modelled as head and tail; an
`ast.ImportFrom` node carries an optional module (`from . import x` has
`module = None`). -/
inductive ImportNode where
  | imp (first : String) (rest : List String)
  | impFrom (module : Option String)
deriving DecidableEq, Repr

/-- The set of forbidden kernel package names (`FORBIDDEN`). -/
def FORBIDDEN : List String := ["cadquery", "cq", "build123d", "OCP", "occ", "occmodel"]

/-- `mod.split(".")[0]` — the first dotted component, i.e. the characters
before the first `'.'` (Python `"".split(".")` is `[""]`, so the empty
module yields `""`). -/
def rootPackage (mod : String) : String := ⟨mod.data.takeWhile (· ≠ '.')⟩

/-- The single module name the guard extracts from a node:
`node.names[0].name` for an `ast.Import`, `node.module or ""` for an
`ast.ImportFrom` (the remaining names of a multi-name `import` are ignored). -/
def guardModule : ImportNode → String
  | .imp first _ => first
  | .impFrom module => module.getD ""

/-- Whether the static guard rejects the script: some walked import node's
extracted module has a forbidden root package. -/
def guardRejects (imports : List ImportNode) : Bool :=
  imports.any fun node => FORBIDDEN.contains (rootPackage (guardModule node))

/-- Whether an AST node *names* a forbidden package in the sense of the
specification: any of an `ast.Import`'s dotted names, or an
`ast.ImportFrom`'s module, roots in `FORBIDDEN`. -/
def namesForbidden : ImportNode → Bool
  | .imp first rest => (first :: rest).any fun m => FORBIDDEN.contains (rootPackage m)
  | .impFrom module => FORBIDDEN.contains (rootPackage (module.getD ""))

/-- What the runner observes of one output value: its runtime type
(`cq.Workplane`, `cq.Compound`, or anything else), whether
`cq.Workplane("XY").add(solid)` succeeds on it, and whether
`cq.exporters.export` succeeds on the wrapped value.  The last two are
kernel behaviour, carried as part of the model. -/
structure Solid where
  isWorkplane : Bool
  isCompound : Bool
  addOk : Bool
  exportOk : Bool
deriving DecidableEq, Repr

/-- The value returned by a `build()` call, shaped as the collection loop
distinguishes it: a `dict` (insertion-ordered key/value pairs), a
`list`/`tuple` whose items are either 2-element pairs or bare values,
`None`, or any other single value. -/
inductive BuildValue where
  | dict (entries : List (String × Solid))
  | seq (entries : List (Option String × Solid))
  | single (s : Solid)
  | noneVal
deriving DecidableEq, Repr

/-- The behaviour of the `build` entry point: absent from the environment
(or bound to a non-callable), raising on call, or returning a value. -/
inductive BuildBehavior where
  | absent
  | raises
  | returns (v : BuildValue)
deriving DecidableEq, Repr

/-- A generated script, modelled by what the runner observes of it:
whether `ast.parse` succeeds, the import nodes of the walked AST, whether
`runpy.run_path` raises, the `build` entry point's behaviour, and the
module globals in binding order (the environment scan keeps those whose
value is a `cq.Workplane` or `cq.Compound`). -/
structure Script where
  parses : Bool
  imports : List ImportNode
  execOk : Bool
  build : BuildBehavior
  globalsBindings : List (String × Solid)
deriving DecidableEq, Repr

/-- `_sanitize_name`: every character that is not alphanumeric, `-` or `_`
becomes `_`; an empty result becomes `"part"`.  (`str.isalnum` is modelled
on the ASCII range the scripts use.) -/
def sanitize_name (name : String) : String :=
  let safe : String :=
    ⟨name.data.map fun ch => if ch.isAlphanum ∨ ch = '-' ∨ ch = '_' then ch else '_'⟩
  if safe = "" then "part" else safe

/-- The items list built from a `build()` result: dict entries in order;
sequence items `(str(it[0]), it[1])` when the item is a 2-element pair and
`("part{idx+1}", it)` otherwise; `[("part1", parts)]` for any other
non-`None` value; `[]` for `None`. -/
def itemsOfBuildValue : BuildValue → List (String × Solid)
  | .dict entries => entries
  | .seq entries => entries.enum.map fun (idx, it) =>
      match it with
      | (some name, s) => (name, s)
      | (none, s) => (s!"part{idx + 1}", s)
  | .single s => [("part1", s)]
  | .noneVal => []

/-- The environment-scan fallback: module globals bound to a `cq.Workplane`
or `cq.Compound`, in binding order. -/
def scanGlobals (script : Script) : List (String × Solid) :=
  script.globalsBindings.filter fun (_, s) => s.isWorkplane ∨ s.isCompound

/-- The items the runner ends up exporting, given that execution succeeded:
the `build()` result when `build` is callable and returned something
collectible, else (including when `build()` raised) the environment scan. -/
def collectedItems (script : Script) : List (String × Solid) :=
  let fromBuild :=
    match script.build with
    | .absent => []
    | .raises => []
    | .returns v => itemsOfBuildValue v
  if fromBuild = [] then scanGlobals script else fromBuild

/-- Why the runner process exited. -/
inductive ExitReason where
  | ok
  | parseFail
  | forbiddenImport
  | execFail
  | noOutputs
  | badOutput (name : String)
  | exportFail (name : String)
deriving DecidableEq, Repr

/-- The observable outcome of a run: the process exit status, the reason,
the files written under the script-adjacent `out/` directory (relative
paths, in write order; a later write to the same path overwrites), and
whether the script body was executed (`runpy.run_path` was entered). -/
structure RunResult where
  exitCode : ℕ
  reason : ExitReason
  written : List String
  ranBody : Bool
deriving DecidableEq, Repr

/-- The export loop over the collected items.  Each item is wrapped
(`cq.Workplane` as-is; `cq.Compound` via `Workplane("XY").add`; anything
else via `add` inside a `try`, a failure raising
`SystemExit("Output '{name}' is not a recognized cadlib solid")`), then
exported to `out/{sanitized}.stl`; an export exception prints a diagnostic
and calls `sys.exit(1)`.  Files already written stay on disk. -/
def exportLoop : List (String × Solid) → List String → RunResult
  | [], written => ⟨0, .ok, written, true⟩
  | (name, s) :: rest, written =>
    if s.isWorkplane ∨ s.isCompound ∨ s.addOk then
      if s.exportOk then
        exportLoop rest (written ++ ["out/" ++ sanitize_name name ++ ".stl"])
      else
        ⟨1, .exportFail name, written, true⟩
    else
      ⟨1, .badOutput name, written, true⟩

/-- `main()` on a readable script path: parse, static import guard
(`raise SystemExit(msg)` exits with status 1), `runpy.run_path` (an
exception exits 1), output collection, `SystemExit` when no outputs were
found, then the export loop.  An uncaught `SyntaxError` from `ast.parse`
terminates the interpreter with status 1. -/
def runMain (script : Script) : RunResult :=
  if ¬ script.parses then ⟨1, .parseFail, [], false⟩
  else if guardRejects script.imports then ⟨1, .forbiddenImport, [], false⟩
  else if ¬ script.execOk then ⟨1, .execFail, [], true⟩
  else
    let items := collectedItems script
    if items = [] then ⟨1, .noOutputs, [], true⟩
    else exportLoop items []

/-! ### Run conditions

The specification's enumerated exit conditions, as predicates on the script
model, plus the two further conditions the code can exit nonzero on. -/

/-- The script failed to parse (`ast.parse` raised `SyntaxError`). -/
def parseFailure (s : Script) : Prop := s.parses = false

/-- The script's AST contains an import or from-import statement naming a
forbidden package (the specification's notion of a forbidden import). -/
def forbiddenImportPresent (s : Script) : Prop := s.imports.any namesForbidden = true

/-- The script raised an exception while `runpy.run_path` executed it. -/
def executionException (s : Script) : Prop := s.execOk = false

/-- Exporting some collected output failed (`cq.exporters.export` raised). -/
def exportFailure (s : Script) : Prop :=
  ∃ pr ∈ collectedItems s, pr.2.exportOk = false

/-- Some collected output is neither a `Workplane` nor a `Compound` and
could not be wrapped (`Output '…' is not a recognized cadlib solid`). -/
def unrecognizedOutput (s : Script) : Prop :=
  ∃ pr ∈ collectedItems s, pr.2.isWorkplane = false ∧ pr.2.isCompound = false ∧
    pr.2.addOk = false

/-- The run reached output collection and found nothing
(`No outputs found. …`). -/
def noOutputsFound (s : Script) : Prop := collectedItems s = []

/-! ### Concrete scripts used in the theorems -/

/-- An output value of type `cq.Workplane` that wraps and exports cleanly. -/
def workplaneSolid : Solid := ⟨true, false, true, true⟩

/-- A script beginning `import os, cadquery`: a single `ast.Import` node with
two names, of which only the second is forbidden; the body runs and binds one
exportable `Workplane` global. -/
def sneakyImportScript : Script :=
  ⟨true, [.imp "os" ["cadquery"]], true, .absent, [("part", workplaneSolid)]⟩

/-- A script beginning `import cadquery`. -/
def directImportScript : Script :=
  ⟨true, [.imp "cadquery" []], true, .absent, []⟩

/-- A script that parses, has no imports, executes cleanly and produces no
output: no `build`, no solid-valued global. -/
def emptyScript : Script := ⟨true, [], true, .absent, []⟩

/-- A script whose top-level execution raises. -/
def failingExecScript : Script := ⟨true, [], false, .absent, []⟩

/-- A script whose `build()` raises but which binds one exportable
`Workplane` global. -/
def buildRaisesScript : Script :=
  ⟨true, [], true, .raises, [("base", workplaneSolid)]⟩

/-- A script whose `build()` returns two outputs named `"a b"` and `"a:b"`,
whose sanitized names collide on `"a_b"`. -/
def collidingNamesScript : Script :=
  ⟨true, [], true, .returns (.dict [("a b", workplaneSolid), ("a:b", workplaneSolid)]), []⟩

/-- A script whose `build()` returns two distinctly named outputs. -/
def twoPartsScript : Script :=
  ⟨true, [], true, .returns (.dict [("base", workplaneSolid), ("lid", workplaneSolid)]), []⟩

/-! ## Attribute assignment on parameter objects

`validators.py` declares its three pydantic models with no `model_config`,
so pydantic's defaults apply to instances: `frozen` is off and
`validate_assignment` is off.  A Python statement `obj.field = v` on such a
model therefore succeeds, stores `v` in the instance's field, runs no
validator, and leaves every other field unchanged.  The following function
is that assignment for the `wall_thickness` field of `TubeParams`. -/

/-- `p.wall_thickness = v` on a constructed `TubeParams` instance: the field
is replaced, nothing is validated, no error is raised. -/
def assignWallThickness (p : TubeParams) (v : ℚ) : TubeParams :=
  { p with wall_thickness := v }

/-! ## Theorems -/

/-- C4 (counterexample): `TubeParams(outer_diameter=4.0)` succeeds, although
every field value is in range and the defaulted `wall_thickness = 2.4`
violates `wall_thickness * 2 < outer_diameter` (`4.8 ≥ 4.0`) — pydantic v2
does not run `wall_reasonable` on the unvalidated default, so construction
does not raise. -/
theorem tubeParams_defaulted_wall_not_validated :
    mkTubeParams (some 4) none none none none = .ok ⟨4, 12/5, 40, .open_, 2⟩ ∧
    (12/5 : ℚ) * 2 ≥ 4 ∧
    (2 ≤ (4 : ℚ) ∧ (4 : ℚ) ≤ 1000) ∧ (4/5 ≤ (12/5 : ℚ) ∧ (12/5 : ℚ) ≤ 100) := by
  refine ⟨?_, by norm_num, by norm_num, by norm_num⟩
  norm_num [mkTubeParams]

/-- C4 (amended): the wall constraint is enforced only on a *passed*
`wall_thickness`.  For every construction whose passed field values satisfy
their range bounds: when `wall_thickness` is passed, construction raises
"wall_thickness must be < outer_diameter / 2" exactly when
`wall_thickness * 2 ≥ outer_diameter` (the passed value or the default 20),
and succeeds otherwise; when `wall_thickness` is omitted, its default 2.4
is installed without validation and construction always succeeds. -/
theorem tubeParams_wall_constraint_on_provided (outerOpt heightOpt capOpt : Option ℚ)
    (styleOpt : Option EndStyle) (wall : ℚ)
    (h_outer : ∀ o ∈ outerOpt, 2 ≤ o ∧ o ≤ 1000)
    (h_wall : 4/5 ≤ wall ∧ wall ≤ 100)
    (h_height : ∀ x ∈ heightOpt, 1 ≤ x ∧ x ≤ 2000)
    (h_cap : ∀ x ∈ capOpt, 4/5 ≤ x ∧ x ≤ 20) :
    (wall * 2 ≥ outerOpt.getD 20 →
      mkTubeParams outerOpt (some wall) heightOpt styleOpt capOpt =
        .error "wall_thickness must be < outer_diameter / 2") ∧
    (wall * 2 < outerOpt.getD 20 →
      mkTubeParams outerOpt (some wall) heightOpt styleOpt capOpt =
        .ok ⟨outerOpt.getD 20, wall, heightOpt.getD 40, styleOpt.getD .open_,
          capOpt.getD 2⟩) ∧
    mkTubeParams outerOpt none heightOpt styleOpt capOpt =
      .ok ⟨outerOpt.getD 20, 12/5, heightOpt.getD 40, styleOpt.getD .open_,
        capOpt.getD 2⟩ := by
  have h_ores : 2 ≤ outerOpt.getD 20 ∧ outerOpt.getD 20 ≤ 1000 := by
    cases outerOpt with
    | none => norm_num
    | some o => simpa using h_outer o rfl
  have h_ores0 : outerOpt.getD 20 ≠ 0 := by
    intro h
    rw [h] at h_ores
    linarith [h_ores.1]
  have h_hres : 1 ≤ heightOpt.getD 40 ∧ heightOpt.getD 40 ≤ 2000 := by
    cases heightOpt with
    | none => norm_num
    | some x => simpa using h_height x rfl
  have h_cres : 4/5 ≤ capOpt.getD 2 ∧ capOpt.getD 2 ≤ 20 := by
    cases capOpt with
    | none => norm_num
    | some x => simpa using h_cap x rfl
  refine ⟨fun hge => ?_, fun hlt => ?_, ?_⟩
  · unfold mkTubeParams
    rw [if_neg (fun hcon => hcon.2 h_ores), if_neg (fun hcon => hcon.2 h_wall),
      if_pos ⟨rfl, h_ores0, hge⟩]
  · unfold mkTubeParams
    rw [if_neg (fun hcon => hcon.2 h_ores), if_neg (fun hcon => hcon.2 h_wall),
      if_neg (fun hcon => absurd hcon.2.2 (not_le.mpr hlt)),
      if_neg (fun hcon => hcon.2 h_hres), if_neg (fun hcon => hcon.2 h_cres)]
    rfl
  · unfold mkTubeParams
    rw [if_neg (fun hcon => hcon.2 h_ores), if_neg (fun hcon => by simp at hcon),
      if_neg (fun hcon => by simp at hcon),
      if_neg (fun hcon => hcon.2 h_hres), if_neg (fun hcon => hcon.2 h_cres)]
    rfl

/-- Witness for `tubeParams_wall_constraint_on_provided`: the rejected
construction of `test_invalid_tube_wall_thickness_message`, an accepted
variant, and an accepted construction omitting `wall_thickness`. -/
theorem tubeParams_wall_constraint_on_provided_witness :
    mkTubeParams (some 10) (some 6) (some 20) none (some 2) =
      .error "wall_thickness must be < outer_diameter / 2" ∧
    mkTubeParams (some 10) (some 2) (some 20) none (some 2) =
      .ok ⟨10, 2, 20, .open_, 2⟩ ∧
    mkTubeParams (some 10) none (some 20) none (some 2) =
      .ok ⟨10, 12/5, 20, .open_, 2⟩ :=
  ⟨(tubeParams_wall_constraint_on_provided (some 10) (some 20) (some 2) none 6
      (by norm_num) (by norm_num) (by norm_num) (by norm_num)).1 (by norm_num),
   (tubeParams_wall_constraint_on_provided (some 10) (some 20) (some 2) none 2
      (by norm_num) (by norm_num) (by norm_num) (by norm_num)).2.1 (by norm_num),
   (tubeParams_wall_constraint_on_provided (some 10) (some 20) (some 2) none 2
      (by norm_num) (by norm_num) (by norm_num) (by norm_num)).2.2⟩

/-- C1 (counterexample): the script `import os, cadquery` has an AST import
node naming the forbidden package `cadquery`, yet the guard — which inspects
only `node.names[0]` of an `ast.Import` — lets it through: the body is
executed and the run exits 0. -/
theorem guard_misses_second_import_name :
    sneakyImportScript.imports.any namesForbidden = true ∧
    (runMain sneakyImportScript).ranBody = true ∧
    (runMain sneakyImportScript).exitCode = 0 := by decide

/-- C1 (amended): for every script that parses and in whose AST some import
node's first dotted name — or some from-import's module — roots in a
forbidden package, the runner terminates with a non-zero exit status before
running the script body. -/
theorem runner_blocks_guarded_imports (s : Script) (hp : s.parses = true)
    (hg : guardRejects s.imports = true) :
    (runMain s).exitCode ≠ 0 ∧ (runMain s).ranBody = false := by
  have hrun : runMain s = ⟨1, .forbiddenImport, [], false⟩ := by
    unfold runMain
    rw [if_neg (by simp [hp]), if_pos hg]
  rw [hrun]
  exact ⟨one_ne_zero, rfl⟩

/-- Witness for `runner_blocks_guarded_imports`: the script
`import cadquery`. -/
theorem runner_blocks_guarded_imports_witness :
    (runMain directImportScript).exitCode ≠ 0 ∧ (runMain directImportScript).ranBody = false :=
  runner_blocks_guarded_imports directImportScript rfl (by decide)

/-- Helper: a non-zero exit of the export loop pins a bad item — an export
that failed, or an output that is neither `Workplane` nor `Compound` and
would not wrap. -/
theorem exportLoop_bad_of_ne_zero (items : List (String × Solid)) (w : List String)
    (h : (exportLoop items w).exitCode ≠ 0) :
    ∃ pr ∈ items, pr.2.exportOk = false ∨
      (pr.2.isWorkplane = false ∧ pr.2.isCompound = false ∧ pr.2.addOk = false) := by
  induction items generalizing w with
  | nil => exact absurd rfl h
  | cons hd tl ih =>
    obtain ⟨name, s⟩ := hd
    rw [exportLoop] at h
    by_cases hws : s.isWorkplane = true ∨ s.isCompound = true ∨ s.addOk = true
    · rw [if_pos hws] at h
      by_cases he : s.exportOk = true
      · rw [if_pos he] at h
        obtain ⟨pr, hmem, hbad⟩ := ih _ h
        exact ⟨pr, List.mem_cons_of_mem _ hmem, hbad⟩
      · exact ⟨(name, s), List.mem_cons_self _ _,
          Or.inl (Bool.eq_false_iff.mpr (by simpa using he))⟩
    · push_neg at hws
      refine ⟨(name, s), List.mem_cons_self _ _, Or.inr ?_⟩
      exact ⟨Bool.eq_false_iff.mpr (by simpa using hws.1),
        Bool.eq_false_iff.mpr (by simpa using hws.2.1),
        Bool.eq_false_iff.mpr (by simpa using hws.2.2)⟩

/-- C2 (counterexample): a script that parses, has no imports at all,
executes cleanly and produces no output exits non-zero
(`SystemExit("No outputs found. …")`), yet none of the claim's four
conditions — parse failure, forbidden import, execution exception, export
failure — occurred. -/
theorem nonzero_exit_without_listed_condition :
    (runMain emptyScript).exitCode ≠ 0 ∧
    ¬ parseFailure emptyScript ∧
    ¬ forbiddenImportPresent emptyScript ∧
    ¬ executionException emptyScript ∧
    ¬ exportFailure emptyScript := by
  refine ⟨by decide, by simp [parseFailure, emptyScript],
    by simp [forbiddenImportPresent, emptyScript],
    by simp [executionException, emptyScript], ?_⟩
  rintro ⟨pr, hmem, -⟩
  simp [collectedItems, scanGlobals, emptyScript] at hmem

/-- C2 (amended): on a readable script path, a non-zero exit has one of six
causes: parse failure, rejection by the static import guard, an exception
during execution, no outputs found, an unrecognized output value, or an
export failure. -/
theorem nonzero_exit_reasons (s : Script) (h : (runMain s).exitCode ≠ 0) :
    parseFailure s ∨ guardRejects s.imports = true ∨ executionException s ∨
      noOutputsFound s ∨ unrecognizedOutput s ∨ exportFailure s := by
  by_cases hp : s.parses = true
  case neg =>
    exact Or.inl (Bool.eq_false_iff.mpr hp)
  by_cases hg : guardRejects s.imports = true
  case pos => exact Or.inr (Or.inl hg)
  by_cases he : s.execOk = true
  case neg =>
    exact Or.inr (Or.inr (Or.inl (Bool.eq_false_iff.mpr he)))
  by_cases hi : collectedItems s = []
  case pos => exact Or.inr (Or.inr (Or.inr (Or.inl hi)))
  have hrun : runMain s = exportLoop (collectedItems s) [] := by
    unfold runMain
    rw [if_neg (by simp [hp]), if_neg (by simp [hg]), if_neg (by simp [he])]
    simp only []
    rw [if_neg hi]
  rw [hrun] at h
  obtain ⟨pr, hmem, hbad⟩ := exportLoop_bad_of_ne_zero _ _ h
  rcases hbad with hbad | hbad
  · exact Or.inr (Or.inr (Or.inr (Or.inr (Or.inr ⟨pr, hmem, hbad⟩))))
  · exact Or.inr (Or.inr (Or.inr (Or.inr (Or.inl ⟨pr, hmem, hbad⟩))))

/-- Witness for `nonzero_exit_reasons`: the no-output script. -/
theorem nonzero_exit_reasons_witness :
    parseFailure emptyScript ∨ guardRejects emptyScript.imports = true ∨
      executionException emptyScript ∨ noOutputsFound emptyScript ∨
      unrecognizedOutput emptyScript ∨ exportFailure emptyScript :=
  nonzero_exit_reasons emptyScript (by decide)

/-- C3 (counterexample): a script whose `build()` raises, but which binds an
exportable `Workplane` global, is *recovered*: the runner falls back to the
environment scan, exports the global, and exits 0 — it does not terminate
with a non-zero status. -/
theorem build_exception_recovers :
    buildRaisesScript.build = .raises ∧
    (runMain buildRaisesScript).exitCode = 0 ∧
    (runMain buildRaisesScript).written = ["out/base.stl"] := by decide

/-- C3 (amended): an exception during top-level script execution makes the
runner print a diagnostic and exit 1 without writing anything; an exception
raised by `build()` is instead caught, and the runner falls back to
scanning the module globals for outputs. -/
theorem exec_exception_and_build_fallback (s : Script) (hp : s.parses = true)
    (hg : guardRejects s.imports = false) :
    (s.execOk = false → runMain s = ⟨1, .execFail, [], true⟩) ∧
    (s.build = .raises → collectedItems s = scanGlobals s) := by
  constructor
  · intro he
    unfold runMain
    rw [if_neg (by simp [hp]), if_neg (by simp [hg]), if_pos (by simp [he])]
  · intro hb
    simp [collectedItems, hb]

/-- Witness for `exec_exception_and_build_fallback`. -/
theorem exec_exception_and_build_fallback_witness :
    runMain failingExecScript = ⟨1, .execFail, [], true⟩ ∧
    collectedItems buildRaisesScript = scanGlobals buildRaisesScript :=
  ⟨(exec_exception_and_build_fallback failingExecScript rfl rfl).1 rfl,
   (exec_exception_and_build_fallback buildRaisesScript rfl rfl).2 rfl⟩

/-- C5 (counterexample): `HoleSpec(size="M3", through=False)` with `depth`
omitted succeeds — the `depth_required_for_blind` validator never runs on
the unvalidated default `None`, so a blind hole with absent depth is *not*
rejected, contrary to the claim's "raises … exactly when depth is absent or
depth <= 0". -/
theorem holeSpec_omitted_depth_not_validated :
    mkHoleSpec none .M3 none (some false) none none none none =
      .ok ⟨.ISO, .M3, .SNAP, false, none, false, false, none⟩ ∧
    (⟨.ISO, .M3, .SNAP, false, none, false, false, none⟩ : HoleSpec).through = false ∧
    (⟨.ISO, .M3, .SNAP, false, none, false, false, none⟩ : HoleSpec).depth = none := by
  refine ⟨?_, rfl, rfl⟩
  simp [mkHoleSpec]

/-- C5 (amended): the blind-depth constraint is enforced only on a *passed*
`depth`.  For a `HoleSpec` constructed with `through=False`: when `depth`
is passed, construction raises "depth must be provided for blind holes"
exactly when the passed value is `None` or ≤ 0; when `depth` is omitted,
its default `None` is installed without validation and construction
succeeds.  When `through` is `True` — passed or defaulted — the `depth`
field is not constrained. -/
theorem holeSpec_blind_depth_on_provided (standard : Option HoleStandard)
    (size : HoleSize) (fit : Option HoleFit) (dv : Option ℚ)
    (cb cs : Option Bool) (head : Option (Option HeadType)) :
    (mkHoleSpec standard size fit (some false) (some dv) cb cs head =
        .error "depth must be provided for blind holes"
      ↔ dv = none ∨ ∃ d, dv = some d ∧ d ≤ 0) ∧
    mkHoleSpec standard size fit (some false) none cb cs head =
      .ok ⟨standard.getD .ISO, size, fit.getD .SNAP, false, none,
        cb.getD false, cs.getD false, head.getD none⟩ ∧
    mkHoleSpec standard size fit (some true) (some dv) cb cs head =
      .ok ⟨standard.getD .ISO, size, fit.getD .SNAP, true, dv,
        cb.getD false, cs.getD false, head.getD none⟩ ∧
    mkHoleSpec standard size fit none (some dv) cb cs head =
      .ok ⟨standard.getD .ISO, size, fit.getD .SNAP, true, dv,
        cb.getD false, cs.getD false, head.getD none⟩ := by
  refine ⟨⟨fun h => ?_, fun h => ?_⟩, by simp [mkHoleSpec], by simp [mkHoleSpec],
    by simp [mkHoleSpec]⟩
  · by_cases hb : depthMissingOrNonpositive dv = true
    · cases dv with
      | none => exact Or.inl rfl
      | some d =>
        refine Or.inr ⟨d, rfl, ?_⟩
        simpa [depthMissingOrNonpositive] using hb
    · simp [mkHoleSpec, hb] at h
  · have hb : depthMissingOrNonpositive dv = true := by
      rcases h with h | ⟨d, hd, hle⟩
      · simp [h, depthMissingOrNonpositive]
      · simp [hd, depthMissingOrNonpositive, hle]
    simp [mkHoleSpec, hb]

/-- C6: with all field values in range, `RectEnclosureParams` construction
succeeds if and only if `lid_height < height`, and raises
"lid_height must be < total height" otherwise. -/
theorem rectEnclosure_lid_constraint (length width height wall lid clearance : ℚ)
    (h_len : 20 ≤ length ∧ length ≤ 1000) (h_wid : 20 ≤ width ∧ width ≤ 1000)
    (h_hgt : 10 ≤ height ∧ height ≤ 1000) (h_wall : 6/5 ≤ wall ∧ wall ≤ 10)
    (h_lid : 2 ≤ lid ∧ lid ≤ 30) (h_clr : 1/20 ≤ clearance ∧ clearance ≤ 1) :
    (lid < height →
      mkRectEnclosureParams length width height wall lid clearance =
        .ok ⟨length, width, height, wall, lid, clearance⟩) ∧
    (lid ≥ height →
      mkRectEnclosureParams length width height wall lid clearance =
        .error "lid_height must be < total height") := by
  constructor
  · intro hc
    unfold mkRectEnclosureParams
    rw [if_neg (not_not_intro h_len), if_neg (not_not_intro h_wid),
      if_neg (not_not_intro h_hgt), if_neg (not_not_intro h_wall),
      if_neg (not_not_intro h_lid), if_neg (by linarith), if_neg (not_not_intro h_clr)]
  · intro hc
    unfold mkRectEnclosureParams
    rw [if_neg (not_not_intro h_len), if_neg (not_not_intro h_wid),
      if_neg (not_not_intro h_hgt), if_neg (not_not_intro h_wall),
      if_neg (not_not_intro h_lid), if_pos hc]

/-- Witness for `rectEnclosure_lid_constraint`: the accepted construction of
`test_generation_features` and a rejected variant with `lid_height = height`. -/
theorem rectEnclosure_lid_constraint_witness :
    mkRectEnclosureParams 100 60 30 (12/5) 6 (1/5) = .ok ⟨100, 60, 30, 12/5, 6, 1/5⟩ ∧
    mkRectEnclosureParams 100 60 10 (12/5) 10 (1/5) =
      .error "lid_height must be < total height" :=
  ⟨(rectEnclosure_lid_constraint 100 60 30 (12/5) 6 (1/5) (by norm_num) (by norm_num)
      (by norm_num) (by norm_num) (by norm_num) (by norm_num)).1 (by norm_num),
   (rectEnclosure_lid_constraint 100 60 10 (12/5) 10 (1/5) (by norm_num) (by norm_num)
      (by norm_num) (by norm_num) (by norm_num) (by norm_num)).2 (by norm_num)⟩

/-- Helper: a run that exits 0 got past all the early exits and ran the
export loop on the collected items. -/
theorem runMain_eq_exportLoop_of_exit_zero (s : Script)
    (h0 : (runMain s).exitCode = 0) :
    runMain s = exportLoop (collectedItems s) [] := by
  by_cases hp : s.parses = true
  case neg =>
    rw [runMain, if_pos (by simp [Bool.eq_false_iff.mpr hp])] at h0
    exact absurd h0 one_ne_zero
  by_cases hg : guardRejects s.imports = true
  case pos =>
    rw [runMain, if_neg (by simp [hp]), if_pos hg] at h0
    exact absurd h0 one_ne_zero
  by_cases he : s.execOk = true
  case neg =>
    rw [runMain, if_neg (by simp [hp]), if_neg (by simp [hg]),
      if_pos (by simp [Bool.eq_false_iff.mpr he])] at h0
    exact absurd h0 one_ne_zero
  have hmain : runMain s =
      if collectedItems s = [] then ⟨1, .noOutputs, [], true⟩
      else exportLoop (collectedItems s) [] := by
    rw [runMain, if_neg (by simp [hp]), if_neg (by simp [hg]), if_neg (by simp [he])]
  by_cases hi : collectedItems s = []
  case pos =>
    rw [hmain, if_pos hi] at h0
    exact absurd h0 one_ne_zero
  rw [hmain, if_neg hi]

/-- Helper: when the export loop exits 0 it has appended, in item order, one
`out/{sanitized}.stl` path per item to the already-written paths. -/
theorem exportLoop_written_of_exit_zero (items : List (String × Solid)) (w : List String)
    (h : (exportLoop items w).exitCode = 0) :
    (exportLoop items w).written =
      w ++ items.map fun pr => "out/" ++ sanitize_name pr.1 ++ ".stl" := by
  induction items generalizing w with
  | nil => simp [exportLoop]
  | cons hd tl ih =>
    obtain ⟨name, s⟩ := hd
    rw [exportLoop] at h ⊢
    by_cases hws : s.isWorkplane = true ∨ s.isCompound = true ∨ s.addOk = true
    · rw [if_pos hws] at h ⊢
      by_cases he : s.exportOk = true
      · rw [if_pos he] at h ⊢
        rw [ih _ h]
        simp
      · rw [if_neg he] at h
        exact absurd h one_ne_zero
    · rw [if_neg hws] at h
      exact absurd h one_ne_zero

/-- Helper: wrapping a sanitized name as `out/{name}.stl` is injective. -/
theorem outPath_injective :
    Function.Injective fun a : String => "out/" ++ a ++ ".stl" := by
  intro a b hab
  have hd : ("out/".data ++ a.data) ++ ".stl".data =
      ("out/".data ++ b.data) ++ ".stl".data := by
    simpa [String.data_append] using congrArg String.data hab
  have hdat : a.data = b.data :=
    List.append_cancel_left (List.append_cancel_right hd)
  cases a
  cases b
  exact congrArg String.mk hdat

/-- C7 (counterexample): a run collecting the two named outputs `"a b"` and
`"a:b"` exits 0 having written the *same* path `out/a_b.stl` twice — the
second export overwrites the first, so fewer than `k = 2` distinct mesh
files exist. -/
theorem colliding_sanitized_names_overwrite :
    (runMain collidingNamesScript).exitCode = 0 ∧
    (collectedItems collidingNamesScript).length = 2 ∧
    (runMain collidingNamesScript).written = ["out/a_b.stl", "out/a_b.stl"] ∧
    (runMain collidingNamesScript).written.dedup.length = 1 := by decide

/-- C7 (amended): a run that collects `k` named outputs whose sanitized
names are pairwise distinct and exits 0 writes exactly `k` distinct `.stl`
files under the script-adjacent `out/` directory, in item order, each named
by the runner's sanitization of the output's name (non-alphanumeric
characters other than `-` and `_` replaced by `_`); colliding sanitized
names instead make later exports overwrite earlier files. -/
theorem export_writes_one_file_per_output (s : Script)
    (h0 : (runMain s).exitCode = 0)
    (hnd : ((collectedItems s).map fun pr => sanitize_name pr.1).Nodup) :
    (runMain s).written =
      (collectedItems s).map (fun pr => "out/" ++ sanitize_name pr.1 ++ ".stl") ∧
    (runMain s).written.Nodup ∧
    (runMain s).written.length = (collectedItems s).length := by
  have hrun := runMain_eq_exportLoop_of_exit_zero s h0
  rw [hrun] at h0 ⊢
  have hw := exportLoop_written_of_exit_zero (collectedItems s) [] h0
  rw [hw]
  refine ⟨by simp, ?_, by simp⟩
  have hcomp : (collectedItems s).map (fun pr => "out/" ++ sanitize_name pr.1 ++ ".stl") =
      ((collectedItems s).map fun pr => sanitize_name pr.1).map
        fun a => "out/" ++ a ++ ".stl" := by
    rw [List.map_map]
    rfl
  simp only [List.nil_append, hcomp]
  exact hnd.map outPath_injective

/-- Witness for `export_writes_one_file_per_output`: two distinctly named
outputs give two distinct files. -/
theorem export_writes_one_file_per_output_witness :
    (runMain twoPartsScript).written =
      (collectedItems twoPartsScript).map (fun pr => "out/" ++ sanitize_name pr.1 ++ ".stl") ∧
    (runMain twoPartsScript).written.Nodup ∧
    (runMain twoPartsScript).written.length = (collectedItems twoPartsScript).length :=
  export_writes_one_file_per_output twoPartsScript (by decide) (by decide)

/-- C8 (counterexample): a `TubeParams` constructed successfully with
`wall_thickness = 2.4` yields `999` — not the constructed value — after the
Python assignment `p.wall_thickness = 999`, which pydantic permits since
`validators.py` sets no `frozen` configuration. -/
theorem tubeParams_not_immutable :
    mkTubeParams (some 20) (some (12/5)) (some 40) (some .open_) (some 2) =
      .ok ⟨20, 12/5, 40, .open_, 2⟩ ∧
    (assignWallThickness ⟨20, 12/5, 40, .open_, 2⟩ 999).wall_thickness = 999 ∧
    (999 : ℚ) ≠ 12/5 := by
  refine ⟨?_, rfl, by norm_num⟩
  norm_num [mkTubeParams]

/-- C8 (amended): parameter objects are plain mutable pydantic models —
after a successful construction, assigning a field stores the assigned
value without re-validation and leaves every other field at its constructed
value; a read returns the constructed value only until the field is
reassigned. -/
theorem tubeParams_assignment_semantics (outerOpt wallOpt heightOpt capOpt : Option ℚ)
    (styleOpt : Option EndStyle) (v : ℚ) (p : TubeParams)
    (h : mkTubeParams outerOpt wallOpt heightOpt styleOpt capOpt = .ok p) :
    (assignWallThickness p v).wall_thickness = v ∧
    (assignWallThickness p v).outer_diameter = outerOpt.getD 20 ∧
    (assignWallThickness p v).height = heightOpt.getD 40 ∧
    (assignWallThickness p v).end_style = styleOpt.getD .open_ ∧
    (assignWallThickness p v).end_cap_thickness = capOpt.getD 2 := by
  have hp : p = ⟨outerOpt.getD 20, wallOpt.getD (12/5), heightOpt.getD 40,
      styleOpt.getD .open_, capOpt.getD 2⟩ := by
    simp only [mkTubeParams] at h
    split_ifs at h
    exact (Except.ok.inj h).symm
  subst hp
  exact ⟨rfl, rfl, rfl, rfl, rfl⟩

/-- Witness for `tubeParams_assignment_semantics`. -/
theorem tubeParams_assignment_semantics_witness :
    (assignWallThickness ⟨20, 12/5, 40, .open_, 2⟩ 999).wall_thickness = 999 ∧
    (assignWallThickness ⟨20, 12/5, 40, .open_, 2⟩ 999).outer_diameter = 20 ∧
    (assignWallThickness ⟨20, 12/5, 40, .open_, 2⟩ 999).height = 40 ∧
    (assignWallThickness ⟨20, 12/5, 40, .open_, 2⟩ 999).end_style = .open_ ∧
    (assignWallThickness ⟨20, 12/5, 40, .open_, 2⟩ 999).end_cap_thickness = 2 :=
  tubeParams_assignment_semantics (some 20) (some (12/5)) (some 40) (some 2)
    (some .open_) 999 ⟨20, 12/5, 40, .open_, 2⟩ (by norm_num [mkTubeParams])

/-- C9: `pattern_nema17` returns exactly the four corners
`(ox ± 15.5, oy ± 15.5, oz)` of a 31 mm square centred on the origin, each
with z-coordinate `oz`. -/
theorem pattern_nema17_four_corners (ox oy oz : ℚ) :
    pattern_nema17 (ox, oy, oz) =
      [(ox - 15.5, oy - 15.5, oz), (ox + 15.5, oy - 15.5, oz),
       (ox + 15.5, oy + 15.5, oz), (ox - 15.5, oy + 15.5, oz)] ∧
    (pattern_nema17 (ox, oy, oz)).length = 4 ∧
    ∀ p ∈ pattern_nema17 (ox, oy, oz), p.2.2 = oz := by
  refine ⟨?_, rfl, ?_⟩
  · norm_num [pattern_nema17]
  · intro p hp
    simp only [pattern_nema17, List.mem_cons, List.not_mem_nil, or_false] at hp
    rcases hp with rfl | rfl | rfl | rfl <;> rfl

/-- C10: for `n ≥ 1`, `bolt_circle` returns exactly `n` points, the `i`-th at
angle `start_angle_deg + i * (360 / n)` degrees, each lying at distance
`|radius|` from `(ox, oy)` in the plane `z = oz`; for `n = 0` the unguarded
division `360.0 / n` raises `ZeroDivisionError` instead of returning an
empty list. -/
theorem bolt_circle_spec (n : ℤ) (radius start_angle_deg ox oy oz : ℝ) :
    (1 ≤ n →
      ∃ pts : List (ℝ × ℝ × ℝ),
        bolt_circle n radius start_angle_deg (ox, oy, oz) = .ok pts ∧
        pts.length = n.toNat ∧
        (∀ i (hi : i < pts.length),
          pts.get ⟨i, hi⟩ =
            (ox + radius * Real.cos (radians (start_angle_deg + 360 / (n : ℝ) * (i : ℝ))),
             oy + radius * Real.sin (radians (start_angle_deg + 360 / (n : ℝ) * (i : ℝ))),
             oz)) ∧
        (∀ p ∈ pts,
          Real.sqrt ((p.1 - ox) ^ 2 + (p.2.1 - oy) ^ 2) = |radius| ∧ p.2.2 = oz)) ∧
    (n = 0 →
      bolt_circle n radius start_angle_deg (ox, oy, oz) = .error "ZeroDivisionError") := by
  constructor
  · intro hn
    have hn0 : n ≠ 0 := by omega
    have hEq : bolt_circle n radius start_angle_deg (ox, oy, oz) =
        .ok ((List.range n.toNat).map fun i : ℕ =>
          (ox + radius * Real.cos (radians (start_angle_deg + 360 / (n : ℝ) * (i : ℝ))),
           oy + radius * Real.sin (radians (start_angle_deg + 360 / (n : ℝ) * (i : ℝ))),
           oz)) := by
      rw [bolt_circle, if_neg hn0]
    refine ⟨_, hEq, by simp, ?_, ?_⟩
    · intro i hi
      simp only [List.get_eq_getElem, List.getElem_map, List.getElem_range]
    · intro p hp
      obtain ⟨i, -, rfl⟩ := List.mem_map.1 hp
      refine ⟨?_, rfl⟩
      have h1 : ox + radius * Real.cos (radians (start_angle_deg + 360 / (n : ℝ) * (i : ℝ)))
          - ox = radius * Real.cos (radians (start_angle_deg + 360 / (n : ℝ) * (i : ℝ))) := by
        ring
      have h2 : oy + radius * Real.sin (radians (start_angle_deg + 360 / (n : ℝ) * (i : ℝ)))
          - oy = radius * Real.sin (radians (start_angle_deg + 360 / (n : ℝ) * (i : ℝ))) := by
        ring
      simp only [h1, h2]
      rw [mul_pow, mul_pow, ← mul_add, Real.cos_sq_add_sin_sq, mul_one,
        Real.sqrt_sq_eq_abs]
  · intro h0
    subst h0
    rfl

/-- Witness for `bolt_circle_spec`: a four-bolt circle of radius 1 at the
origin, and the `n = 0` failure. -/
theorem bolt_circle_spec_witness :
    (∃ pts : List (ℝ × ℝ × ℝ),
        bolt_circle 4 1 0 (0, 0, 0) = .ok pts ∧
        pts.length = (4 : ℤ).toNat ∧
        (∀ i (hi : i < pts.length),
          pts.get ⟨i, hi⟩ =
            (0 + 1 * Real.cos (radians (0 + 360 / ((4 : ℤ) : ℝ) * (i : ℝ))),
             0 + 1 * Real.sin (radians (0 + 360 / ((4 : ℤ) : ℝ) * (i : ℝ))),
             0)) ∧
        (∀ p ∈ pts,
          Real.sqrt ((p.1 - 0) ^ 2 + (p.2.1 - 0) ^ 2) = |(1 : ℝ)| ∧ p.2.2 = 0)) ∧
    bolt_circle 0 1 0 (0, 0, 0) = .error "ZeroDivisionError" :=
  ⟨(bolt_circle_spec 4 1 0 0 0 0).1 (by decide), (bolt_circle_spec 0 1 0 0 0 0).2 rfl⟩

end Fabrikator
